import Mathlib

/-!
# Clinic chat/messaging engine — formal model

A shallow embedding of the chat-thread / message lifecycle engine of the
clinic-management API: chat directory (create-or-fetch per connection,
access verification, unread-count bookkeeping), message ledger (send,
cursor-paginated retrieval, read-state transitions, soft delete), and the
request endpoints composing them.

The persistent store is modelled as explicit lists of rows; each mutating
operation maps a database state to a new state together with an
`Except`-style outcome mirroring the service's error taxonomy
(NotFound / Forbidden / Validation / InvalidState, where the latter two
surface as `BadRequestException` in the transport layer).
-/

namespace Clinic

/-- User roles. -/
inductive Role
  | DOCTOR
  | PATIENT
  | ADMIN
deriving DecidableEq

/-- Connection status (`ACTIVE` | `INACTIVE`). -/
inductive ConnStatus
  | ACTIVE
  | INACTIVE
deriving DecidableEq

/-- Message types: `TEXT`, `SYSTEM`, `DELETED`. -/
inductive MessageType
  | TEXT
  | SYSTEM
  | DELETED
deriving DecidableEq

/-- Error taxonomy of the services: `NotFound` (entity absent), `Forbidden`
(authorized identity lacking access), `Validation` (malformed/empty input,
surfaced as `BadRequestException`), `InvalidState` (operation not permitted
in the current status, also surfaced as `BadRequestException`). -/
inductive Err
  | NotFound
  | Forbidden
  | Validation
  | InvalidState
deriving DecidableEq

/-- A doctor/patient `Connection` row, as read by the chat core through
`connectionSelect` (the nested select exposes both the profile ids and the
underlying user ids of both sides). -/
structure Connection where
  id : String
  doctorId : String
  patientId : String
  doctorUserId : String
  patientUserId : String
  status : ConnStatus
  unreadCount : Nat
  lastMessageAt : Option Nat
  lastActivityAt : Option Nat
deriving DecidableEq

/-- A doctor profile row (profile id together with the owning user id). -/
structure DoctorProfile where
  id : String
  userId : String
deriving DecidableEq

/-- A patient profile row (profile id together with the owning user id). -/
structure PatientProfile where
  id : String
  userId : String
deriving DecidableEq

/-- A `Chat` row: one-to-one with a `Connection` (`connectionId` unique). -/
structure Chat where
  id : Nat
  connectionId : String
  lastMessageAt : Option Nat
  lastMessagePreview : Option String
deriving DecidableEq

/-- A `Message` row. `createdAt` is a discrete timestamp; ordering of a chat
is by `(createdAt, id)`. -/
structure Message where
  id : Nat
  chatId : Nat
  senderId : String
  content : String
  messageType : MessageType
  isRead : Bool
  isDeleted : Bool
  createdAt : Nat
deriving DecidableEq

/-- The store: rows of each table plus fresh-id counters for the rows the
core creates. -/
structure DB where
  connections : List Connection
  doctors : List DoctorProfile
  patients : List PatientProfile
  chats : List Chat
  messages : List Message
  nextChatId : Nat
  nextMessageId : Nat
deriving DecidableEq

/-- `doctorPatientConnection.findUnique({where: {id}})`. -/
def findConnection (db : DB) (connectionId : String) : Option Connection :=
  db.connections.find? (fun c => c.id == connectionId)

/-- `chat.findUnique({where: {connectionId}})`. -/
def findChatByConnection (db : DB) (connectionId : String) : Option Chat :=
  db.chats.find? (fun c => c.connectionId == connectionId)

/-- `chat.findUnique({where: {id}})`. -/
def findChat (db : DB) (chatId : Nat) : Option Chat :=
  db.chats.find? (fun c => c.id == chatId)

/-- `message.findUnique({where: {id}})`. -/
def findMessage (db : DB) (messageId : Nat) : Option Message :=
  db.messages.find? (fun m => m.id == messageId)

/-- `doctor.findUnique({where: {userId}})`. -/
def findDoctorByUser (db : DB) (userId : String) : Option DoctorProfile :=
  db.doctors.find? (fun d => d.userId == userId)

/-- `patient.findUnique({where: {userId}})`. -/
def findPatientByUser (db : DB) (userId : String) : Option PatientProfile :=
  db.patients.find? (fun p => p.userId == userId)

/-- Membership of a user in a connection: the user is the doctor side's or
the patient side's underlying user. -/
def connMember (conn : Connection) (userId : String) : Bool :=
  conn.doctorUserId == userId || conn.patientUserId == userId

/-- Pure access predicate over a loaded chat header (`hasAccess` /
`canAccessChat`): the user is a member of the chat's connection. -/
def canAccessChat (db : DB) (chat : Chat) (userId : String) : Bool :=
  match findConnection db chat.connectionId with
  | some conn => connMember conn userId
  | none => false

/-- The fixed system-message text appended on chat creation. -/
def systemMessageContent : String :=
  "Chat started. You can now communicate securely."

/-- The fixed placeholder written over a soft-deleted message's content. -/
def deletedPlaceholder : String := "This message was deleted"

/-- Truncation of a preview to its first `n` characters
(`preview.substring(0, n)`). -/
def substringTo (s : String) (n : Nat) : String := String.mk (s.data.take n)

/-- `content.trim()`: the string with leading and trailing whitespace
removed. -/
def strTrim (s : String) : String :=
  String.mk
    (((s.data.dropWhile Char.isWhitespace).reverse.dropWhile
        Char.isWhitespace).reverse)

namespace ChatService

/-- Modelled from the spec: `ChatService.getOrCreateChat(connectionId)`
(chat.service.ts is absent from the sources; only its unit tests are).
Fails `NotFound` if the connection is absent, `InvalidState` if its status
is not `ACTIVE`; returns the existing chat when one exists, otherwise
creates a chat for the connection and synchronously appends one `SYSTEM`
message ("Chat started…") authored by the doctor side's user, marked
already-read. `now` is the creation timestamp. -/
def getOrCreateChat (db : DB) (connectionId : String) (now : Nat) :
    DB × Except Err Chat :=
  match findConnection db connectionId with
  | none => (db, .error .NotFound)
  | some conn =>
    if conn.status ≠ ConnStatus.ACTIVE then (db, .error .InvalidState)
    else
      match findChatByConnection db connectionId with
      | some chat => (db, .ok chat)
      | none =>
        let chat : Chat :=
          { id := db.nextChatId, connectionId := connectionId,
            lastMessageAt := none, lastMessagePreview := none }
        let sysMsg : Message :=
          { id := db.nextMessageId, chatId := chat.id,
            senderId := conn.doctorUserId,
            content := systemMessageContent,
            messageType := .SYSTEM, isRead := true, isDeleted := false,
            createdAt := now }
        ({ db with
            chats := chat :: db.chats,
            messages := sysMsg :: db.messages,
            nextChatId := db.nextChatId + 1,
            nextMessageId := db.nextMessageId + 1 },
         .ok chat)

/-- Modelled from the spec: `ChatService.getChatDetails(chatId, userId)` —
`NotFound` if no such chat, `Forbidden` if the user is neither side's
underlying user. -/
def getChatDetails (db : DB) (chatId : Nat) (userId : String) :
    Except Err Chat :=
  match findChat db chatId with
  | none => .error .NotFound
  | some chat =>
    if canAccessChat db chat userId then .ok chat else .error .Forbidden

/-- Modelled from the spec: `ChatService.verifyUserAccess(chatId, userId)` —
same membership test as `getChatDetails` but returning a boolean;
`NotFound` only when the chat itself is absent. -/
def verifyUserAccess (db : DB) (chatId : Nat) (userId : String) :
    Except Err Bool :=
  match findChat db chatId with
  | none => .error .NotFound
  | some chat => .ok (canAccessChat db chat userId)

/-- Modelled from the spec: `ChatService.getUnreadCount(userId, role)` —
sums `unreadCount` across the user's connections; returns 0 (not an error)
when the doctor profile is missing, but `NotFound` when the patient profile
is missing (the inherited asymmetry). -/
def getUnreadCount (db : DB) (userId : String) (role : Role) :
    Except Err Nat :=
  match role with
  | .DOCTOR =>
    match findDoctorByUser db userId with
    | none => .ok 0
    | some d =>
      .ok (((db.connections.filter (fun c => c.doctorId == d.id)).map
        Connection.unreadCount).sum)
  | _ =>
    match findPatientByUser db userId with
    | none => .error .NotFound
    | some p =>
      .ok (((db.connections.filter (fun c => c.patientId == p.id)).map
        Connection.unreadCount).sum)

/-- Modelled from the spec:
`ChatService.updateConnectionLastMessage(connectionId, timestamp, preview)`
— sets the connection's `lastMessageAt`/`lastActivityAt` and the chat's
`lastMessageAt` to the same timestamp, and the chat's `lastMessagePreview`
to the preview truncated to 200 characters. -/
def updateConnectionLastMessage (db : DB) (connectionId : String) (t : Nat)
    (preview : String) : DB :=
  { db with
    connections := db.connections.map (fun c =>
      if c.id == connectionId then
        { c with lastMessageAt := some t, lastActivityAt := some t }
      else c),
    chats := db.chats.map (fun c =>
      if c.connectionId == connectionId then
        { c with lastMessageAt := some t,
                 lastMessagePreview := some (substringTo preview 200) }
      else c) }

/-- Modelled from the spec:
`ChatService.incrementUnreadCount(connectionId, recipientRole)` — atomic
increment by 1 of the connection's counter. -/
def incrementUnreadCount (db : DB) (connectionId : String) (_recipientRole : Role) :
    DB :=
  { db with
    connections := db.connections.map (fun c =>
      if c.id == connectionId then { c with unreadCount := c.unreadCount + 1 }
      else c) }

/-- Modelled from the spec: `ChatService.resetUnreadCount(chatId, userId)` —
resolves chat→connection, verifies access, sets `unreadCount` to 0. -/
def resetUnreadCount (db : DB) (chatId : Nat) (userId : String) :
    DB × Except Err Unit :=
  match findChat db chatId with
  | none => (db, .error .NotFound)
  | some chat =>
    if canAccessChat db chat userId then
      ({ db with
          connections := db.connections.map (fun c =>
            if c.id == chat.connectionId then { c with unreadCount := 0 }
            else c) },
       .ok ())
    else (db, .error .Forbidden)

end ChatService

namespace MessageService

/-- Modelled from the spec:
`MessageService.sendMessage(chatId, senderId, content, type=TEXT)` — fails
`Validation` if the content is empty after trimming, `NotFound` if the chat
is absent, `Forbidden` if the sender lacks access (the pure membership
predicate), `InvalidState` if the underlying connection is not `ACTIVE`;
otherwise persists the message. The error paths return the store unchanged:
no row is persisted before all checks pass. `now` is the creation
timestamp. -/
def sendMessage (db : DB) (chatId : Nat) (senderId : String) (content : String)
    (now : Nat) (msgType : MessageType := .TEXT) : DB × Except Err Message :=
  if strTrim content == "" then (db, .error .Validation)
  else
    match findChat db chatId with
    | none => (db, .error .NotFound)
    | some chat =>
      match findConnection db chat.connectionId with
      | none => (db, .error .Forbidden)
      | some conn =>
        if ¬ connMember conn senderId then (db, .error .Forbidden)
        else if conn.status ≠ ConnStatus.ACTIVE then (db, .error .InvalidState)
        else
          let msg : Message :=
            { id := db.nextMessageId, chatId := chatId, senderId := senderId,
              content := content, messageType := msgType,
              isRead := false, isDeleted := false, createdAt := now }
          ({ db with
              messages := msg :: db.messages,
              nextMessageId := db.nextMessageId + 1 },
           .ok msg)

/-- The candidate messages of a page: messages of the chat strictly older
than the cursor (no cursor: unbounded). -/
def chatMessages (db : DB) (chatId : Nat) (cursor : Option Nat) :
    List Message :=
  db.messages.filter (fun m =>
    m.chatId == chatId &&
      (match cursor with
       | none => true
       | some t => m.createdAt < t))

/-- Newest-first comparison: `a` may precede `b` when `(b.createdAt, b.id)`
is lexicographically at most `(a.createdAt, a.id)`. -/
def msgLe (a b : Message) : Bool :=
  b.createdAt < a.createdAt || (b.createdAt == a.createdAt && b.id ≤ a.id)

/-- A page of messages: the rows, the continuation cursor (`createdAt` of
the last returned message), and the `hasMore` flag. -/
structure MessagesPage where
  messages : List Message
  cursor : Option Nat
  hasMore : Bool
deriving DecidableEq

/-- Modelled from the spec:
`MessageService.getMessages(chatId, userId, {cursor?, limit?})` — `NotFound`
if the chat header is missing, `Forbidden` if no access; otherwise up to
`limit` (default 20) messages strictly older than `cursor`, newest-first by
`(createdAt, id)` descending; `cursor` of the result is the `createdAt` of
the last returned message, and `hasMore` is computed by a bounded existence
check for a message older than that new cursor. -/
def getMessages (db : DB) (chatId : Nat) (userId : String)
    (cursor : Option Nat) (limit : Option Nat) : Except Err MessagesPage :=
  match findChat db chatId with
  | none => .error .NotFound
  | some chat =>
    if ¬ canAccessChat db chat userId then .error .Forbidden
    else
      let lim := limit.getD 20
      let page := (List.mergeSort (chatMessages db chatId cursor) msgLe).take lim
      let newCursor := page.getLast?.map Message.createdAt
      let hasMore :=
        match page.getLast? with
        | none => false
        | some last => !(chatMessages db chatId (some last.createdAt)).isEmpty
      .ok { messages := page, cursor := newCursor, hasMore := hasMore }

/-- Modelled from the spec: `MessageService.markAsRead(messageId, userId)` —
`NotFound` if the message (or its chat header) is absent, `Forbidden` if the
user cannot access the owning chat, `Validation` if the user is the
message's own sender; idempotent on an already-read message (returns the
current state), otherwise flips `isRead` to true. -/
def markAsRead (db : DB) (messageId : Nat) (userId : String) :
    DB × Except Err Message :=
  match findMessage db messageId with
  | none => (db, .error .NotFound)
  | some msg =>
    match findChat db msg.chatId with
    | none => (db, .error .NotFound)
    | some chat =>
      if ¬ canAccessChat db chat userId then (db, .error .Forbidden)
      else if msg.senderId == userId then (db, .error .Validation)
      else if msg.isRead then (db, .ok msg)
      else
        ({ db with
            messages := db.messages.map (fun m =>
              if m.id == messageId then { m with isRead := true } else m) },
         .ok { msg with isRead := true })

/-- Modelled from the spec: `MessageService.markAllAsRead(chatId, userId)` —
`NotFound`/`Forbidden` as for retrieval; bulk-flips `isRead` to true for
every message of the chat authored by someone else and currently unread;
returns a confirmation string. -/
def markAllAsRead (db : DB) (chatId : Nat) (userId : String) :
    DB × Except Err String :=
  match findChat db chatId with
  | none => (db, .error .NotFound)
  | some chat =>
    if ¬ canAccessChat db chat userId then (db, .error .Forbidden)
    else
      ({ db with
          messages := db.messages.map (fun m =>
            if m.chatId == chatId && !m.isRead && m.senderId != userId then
              { m with isRead := true }
            else m) },
       .ok "All messages marked as read")

/-- Modelled from the spec: `MessageService.deleteMessage(messageId, userId)`
— `NotFound` if absent, `Forbidden` if the user is not the sender,
`InvalidState` if already deleted; on success writes the fixed placeholder
over the content, sets `isDeleted` and `messageType := DELETED`, keeping
the row. -/
def deleteMessage (db : DB) (messageId : Nat) (userId : String) :
    DB × Except Err String :=
  match findMessage db messageId with
  | none => (db, .error .NotFound)
  | some msg =>
    if msg.senderId ≠ userId then (db, .error .Forbidden)
    else if msg.isDeleted then (db, .error .InvalidState)
    else
      ({ db with
          messages := db.messages.map (fun m =>
            if m.id == messageId then
              { m with isDeleted := true, content := deletedPlaceholder,
                       messageType := .DELETED }
            else m) },
       .ok "Message deleted successfully")

/-- Modelled from the spec: `MessageService.getUnreadCount(chatId, userId)` —
counts the chat's messages with `isRead = false`, `isDeleted = false` and a
sender other than the user. -/
def getUnreadCount (db : DB) (chatId : Nat) (userId : String) : Nat :=
  (db.messages.filter (fun m =>
    m.chatId == chatId && !m.isRead && m.senderId != userId &&
      !m.isDeleted)).length

end MessageService

namespace ChatController

/-- Modelled from the spec: the get-or-create chat endpoint. It first runs
`ChatService.getOrCreateChat`, then checks the caller's membership with
`verifyUserAccess`, rejecting a non-member with a `Validation`-class error
(`BadRequestException`); the service mutations performed before the check
persist. -/
def getOrCreateChat (db : DB) (connectionId : String) (userId : String)
    (now : Nat) : DB × Except Err Chat :=
  match ChatService.getOrCreateChat db connectionId now with
  | (db1, .error e) => (db1, .error e)
  | (db1, .ok chat) =>
    match ChatService.verifyUserAccess db1 chat.id userId with
    | .error e => (db1, .error e)
    | .ok true => (db1, .ok chat)
    | .ok false => (db1, .error .Validation)

/-- Modelled from the spec and the controller's unit test: the send-message
endpoint. It runs `MessageService.sendMessage`, then resolves the chat with
`getChatDetails` and invokes `updateConnectionLastMessage` with the
persisted message's `createdAt` and the request content. (The controller's
test mocks no `incrementUnreadCount` and asserts only the
`updateConnectionLastMessage` interaction, so no unread increment happens
here.) -/
def sendMessage (db : DB) (chatId : Nat) (content : String)
    (msgType : MessageType) (userId : String) (now : Nat) :
    DB × Except Err Message :=
  match MessageService.sendMessage db chatId userId content now msgType with
  | (db1, .error e) => (db1, .error e)
  | (db1, .ok msg) =>
    match ChatService.getChatDetails db1 chatId userId with
    | .error e => (db1, .error e)
    | .ok chat =>
      (ChatService.updateConnectionLastMessage db1 chat.connectionId
        msg.createdAt content,
       .ok msg)

/-- Modelled from the spec and the controller's unit test: the mark-all-read
endpoint pairs `MessageService.markAllAsRead` with
`ChatService.resetUnreadCount` on the same chat and user. -/
def markAllAsRead (db : DB) (chatId : Nat) (userId : String) :
    DB × Except Err String :=
  match MessageService.markAllAsRead db chatId userId with
  | (db1, .error e) => (db1, .error e)
  | (db1, .ok confirmation) =>
    match ChatService.resetUnreadCount db1 chatId userId with
    | (db2, .error e) => (db2, .error e)
    | (db2, .ok _) => (db2, .ok confirmation)

end ChatController

/-! ## Concrete fixtures for witnesses -/

/-- An `ACTIVE` connection between doctor user `ud1` and patient user
`up1`. -/
def connA : Connection :=
  { id := "c1", doctorId := "d1", patientId := "p1",
    doctorUserId := "ud1", patientUserId := "up1",
    status := .ACTIVE, unreadCount := 0,
    lastMessageAt := none, lastActivityAt := none }

/-- A store holding `connA` with its profiles and no chat yet. -/
def dbNoChat : DB :=
  { connections := [connA],
    doctors := [{ id := "d1", userId := "ud1" }],
    patients := [{ id := "p1", userId := "up1" }],
    chats := [], messages := [],
    nextChatId := 1, nextMessageId := 1 }

/-- The chat of `connA` in the fixtures that already have one. -/
def chatA : Chat :=
  { id := 1, connectionId := "c1", lastMessageAt := none,
    lastMessagePreview := none }

/-- A store holding `connA` together with its already-created chat. -/
def dbWithChat : DB :=
  { dbNoChat with chats := [chatA], nextChatId := 2 }

/-- An `INACTIVE` connection with the same participants. -/
def connB : Connection := { connA with id := "c2", status := .INACTIVE }

/-- The chat of the inactive connection `connB`. -/
def chatB : Chat :=
  { id := 2, connectionId := "c2", lastMessageAt := none,
    lastMessagePreview := none }

/-- A store whose only connection is `INACTIVE` but already has a chat. -/
def dbInactive : DB :=
  { dbNoChat with connections := [connB], chats := [chatB], nextChatId := 3 }

/-- A text message sent by the doctor-side user, unread and not deleted. -/
def msgA : Message :=
  { id := 10, chatId := 1, senderId := "ud1", content := "hello",
    messageType := .TEXT, isRead := false, isDeleted := false, createdAt := 5 }

/-- A text message sent by the patient-side user, already read. -/
def msgB : Message :=
  { id := 11, chatId := 1, senderId := "up1", content := "hi there",
    messageType := .TEXT, isRead := true, isDeleted := false, createdAt := 6 }

/-- `dbWithChat` together with two persisted messages. -/
def dbMsgs : DB :=
  { dbWithChat with messages := [msgB, msgA], nextMessageId := 12 }

/-- An unread patient-side message in chat 1. -/
def msgC : Message :=
  { id := 12, chatId := 1, senderId := "up1", content := "are you there",
    messageType := .TEXT, isRead := false, isDeleted := false, createdAt := 7 }

/-- `dbWithChat` with a pending unread counter of 7 on the connection and
an unread counterpart message in the chat. -/
def dbUnread : DB :=
  { dbWithChat with
      connections := [{ connA with unreadCount := 7 }],
      messages := [msgC, msgA],
      nextMessageId := 13 }

/-! ## Helper lemmas -/

/-- `findMessage` commutes with an id-preserving row update. -/
theorem findMessage_map (db : DB) (f : Message → Message)
    (hid : ∀ m, (f m).id = m.id) (mid : Nat) :
    findMessage { db with messages := db.messages.map f } mid =
      (findMessage db mid).map f := by
  show (db.messages.map f).find? (fun m => m.id == mid) = _
  rw [List.find?_map]
  have hp : ((fun m : Message => m.id == mid) ∘ f) =
      (fun m : Message => m.id == mid) := by
    funext m
    simp [Function.comp, hid]
  rw [hp]
  rfl

/-- On an existing accessible chat, `markAllAsRead` succeeds and flips the
unread counterpart messages of the chat. -/
theorem markAllAsRead_ok (db : DB) (chatId : Nat) (uid : String)
    (chat : Chat) (hchat : findChat db chatId = some chat)
    (hacc : canAccessChat db chat uid = true) :
    MessageService.markAllAsRead db chatId uid =
      ({ db with messages := db.messages.map (fun m =>
          if m.chatId == chatId && !m.isRead && m.senderId != uid then
            { m with isRead := true }
          else m) },
       .ok "All messages marked as read") := by
  simp [MessageService.markAllAsRead, hchat, hacc]

/-- On an existing accessible chat, `resetUnreadCount` succeeds and zeroes
the owning connection's counter. -/
theorem resetUnreadCount_ok (db : DB) (chatId : Nat) (uid : String)
    (chat : Chat) (hchat : findChat db chatId = some chat)
    (hacc : canAccessChat db chat uid = true) :
    ChatService.resetUnreadCount db chatId uid =
      ({ db with connections := db.connections.map (fun c =>
          if c.id == chat.connectionId then { c with unreadCount := 0 }
          else c) },
       .ok ()) := by
  simp [ChatService.resetUnreadCount, hchat, hacc]

/-- The message row `sendMessage` persists when all of its guards pass. -/
def newMessage (db : DB) (chatId : Nat) (senderId content : String)
    (ty : MessageType) (now : Nat) : Message :=
  { id := db.nextMessageId, chatId := chatId, senderId := senderId,
    content := content, messageType := ty, isRead := false,
    isDeleted := false, createdAt := now }

/-- The store after `sendMessage` persists its new row. -/
def dbAfterSend (db : DB) (chatId : Nat) (senderId content : String)
    (ty : MessageType) (now : Nat) : DB :=
  { db with
      messages := newMessage db chatId senderId content ty now :: db.messages,
      nextMessageId := db.nextMessageId + 1 }

/-- When all guards pass, `sendMessage` persists exactly the new message
row. -/
theorem sendMessage_ok (db : DB) (chatId : Nat) (senderId content : String)
    (now : Nat) (ty : MessageType) (chat : Chat) (conn : Connection)
    (htrim : (strTrim content == "") = false)
    (hchat : findChat db chatId = some chat)
    (hconn : findConnection db chat.connectionId = some conn)
    (hmem : connMember conn senderId = true)
    (hstat : conn.status = ConnStatus.ACTIVE) :
    MessageService.sendMessage db chatId senderId content now ty =
      (dbAfterSend db chatId senderId content ty now,
       .ok (newMessage db chatId senderId content ty now)) := by
  simp [MessageService.sendMessage, dbAfterSend, newMessage, htrim, hchat,
    hconn, hmem, hstat]

/-- The newest-first comparison is transitive. -/
theorem msgLe_trans (a b c : Message) (hab : MessageService.msgLe a b)
    (hbc : MessageService.msgLe b c) : MessageService.msgLe a c := by
  simp only [MessageService.msgLe, Bool.or_eq_true, Bool.and_eq_true,
    decide_eq_true_eq, beq_iff_eq] at hab hbc ⊢
  rcases hab with h1 | ⟨h1, h2⟩ <;> rcases hbc with h3 | ⟨h3, h4⟩ <;> omega

/-- The newest-first comparison is total. -/
theorem msgLe_total (a b : Message) :
    MessageService.msgLe a b || MessageService.msgLe b a := by
  simp only [MessageService.msgLe, Bool.or_eq_true, Bool.and_eq_true,
    decide_eq_true_eq, beq_iff_eq]
  omega

/-- On an existing accessible chat, `getMessages` returns the sorted,
cursored, truncated page. -/
theorem getMessages_ok (db : DB) (chatId : Nat) (userId : String)
    (cursor : Option Nat) (limit : Option Nat) (chat : Chat)
    (hchat : findChat db chatId = some chat)
    (hacc : canAccessChat db chat userId = true) :
    MessageService.getMessages db chatId userId cursor limit =
      .ok { messages := (List.mergeSort
              (MessageService.chatMessages db chatId cursor)
              MessageService.msgLe).take (limit.getD 20),
            cursor := ((List.mergeSort
              (MessageService.chatMessages db chatId cursor)
              MessageService.msgLe).take (limit.getD 20)).getLast?.map
                Message.createdAt,
            hasMore :=
              match ((List.mergeSort
                  (MessageService.chatMessages db chatId cursor)
                  MessageService.msgLe).take (limit.getD 20)).getLast? with
              | none => false
              | some last =>
                !(MessageService.chatMessages db chatId
                    (some last.createdAt)).isEmpty } := by
  simp [MessageService.getMessages, hchat, hacc]

/-! ## Claims -/

/-- **C1.** For every connection id whose `Connection` exists and is
`ACTIVE`: if no `Chat` exists, `getOrCreateChat` creates exactly one chat
and synchronously appends exactly one `SYSTEM` message whose `senderId` is
the doctor side's underlying user id and whose `isRead` is true; if a chat
already exists, the same chat is returned and no new chat and no new system
message is created. -/
theorem getOrCreateChat_correct (db : DB) (cid : String) (now : Nat)
    (conn : Connection)
    (hconn : findConnection db cid = some conn)
    (hactive : conn.status = ConnStatus.ACTIVE) :
    (findChatByConnection db cid = none →
      ∃ chat sysMsg,
        ChatService.getOrCreateChat db cid now =
          ({ db with
              chats := chat :: db.chats,
              messages := sysMsg :: db.messages,
              nextChatId := db.nextChatId + 1,
              nextMessageId := db.nextMessageId + 1 }, .ok chat) ∧
        chat.connectionId = cid ∧
        sysMsg.chatId = chat.id ∧
        sysMsg.messageType = MessageType.SYSTEM ∧
        sysMsg.senderId = conn.doctorUserId ∧
        sysMsg.isRead = true) ∧
    (∀ chat0, findChatByConnection db cid = some chat0 →
      ChatService.getOrCreateChat db cid now = (db, .ok chat0)) := by
  constructor
  · intro hnone
    refine ⟨{ id := db.nextChatId, connectionId := cid,
              lastMessageAt := none, lastMessagePreview := none },
            { id := db.nextMessageId, chatId := db.nextChatId,
              senderId := conn.doctorUserId,
              content := systemMessageContent, messageType := .SYSTEM,
              isRead := true, isDeleted := false, createdAt := now },
            ?_, rfl, rfl, rfl, rfl, rfl⟩
    simp [ChatService.getOrCreateChat, hconn, hactive, hnone]
  · intro chat0 hsome
    simp [ChatService.getOrCreateChat, hconn, hactive, hsome]

/-- Witness for **C1** at the fixtures: creation on `dbNoChat`, plain
return on `dbWithChat`. -/
theorem getOrCreateChat_correct_witness :
    (∃ chat sysMsg,
      ChatService.getOrCreateChat dbNoChat "c1" 7 =
        ({ dbNoChat with
            chats := chat :: dbNoChat.chats,
            messages := sysMsg :: dbNoChat.messages,
            nextChatId := dbNoChat.nextChatId + 1,
            nextMessageId := dbNoChat.nextMessageId + 1 }, .ok chat) ∧
      chat.connectionId = "c1" ∧
      sysMsg.chatId = chat.id ∧
      sysMsg.messageType = MessageType.SYSTEM ∧
      sysMsg.senderId = connA.doctorUserId ∧
      sysMsg.isRead = true) ∧
    ChatService.getOrCreateChat dbWithChat "c1" 7 = (dbWithChat, .ok chatA) :=
  ⟨(getOrCreateChat_correct dbNoChat "c1" 7 connA rfl rfl).1 rfl,
   (getOrCreateChat_correct dbWithChat "c1" 7 connA rfl rfl).2 chatA rfl⟩

/-- **C2.** `sendMessage` fails with `Validation` when the content is empty
after trimming, `NotFound` when the chat is absent, `Forbidden` when the
sender lacks access to the chat, and `InvalidState` when the underlying
connection's status is not `ACTIVE`; in each failure the store is returned
unchanged, so in the `InvalidState` case no message row is ever
persisted. -/
theorem sendMessage_errors (db : DB) (chatId : Nat) (senderId content : String)
    (now : Nat) (ty : MessageType) :
    (strTrim content = "" →
      MessageService.sendMessage db chatId senderId content now ty =
        (db, .error .Validation)) ∧
    (strTrim content ≠ "" → findChat db chatId = none →
      MessageService.sendMessage db chatId senderId content now ty =
        (db, .error .NotFound)) ∧
    (∀ chat conn, strTrim content ≠ "" → findChat db chatId = some chat →
      findConnection db chat.connectionId = some conn →
      connMember conn senderId = false →
      MessageService.sendMessage db chatId senderId content now ty =
        (db, .error .Forbidden)) ∧
    (∀ chat conn, strTrim content ≠ "" → findChat db chatId = some chat →
      findConnection db chat.connectionId = some conn →
      connMember conn senderId = true → conn.status ≠ ConnStatus.ACTIVE →
      MessageService.sendMessage db chatId senderId content now ty =
        (db, .error .InvalidState)) := by
  refine ⟨fun h => ?_, fun h hnone => ?_, fun chat conn h hc hk hm => ?_,
    fun chat conn h hc hk hm hs => ?_⟩ <;>
    simp_all [MessageService.sendMessage]

/-- Witness for **C2**: empty content, a missing chat, an intruding sender,
and a send on the inactive connection's chat. -/
theorem sendMessage_errors_witness :
    MessageService.sendMessage dbWithChat 1 "ud1" "  " 5 .TEXT =
      (dbWithChat, .error .Validation) ∧
    MessageService.sendMessage dbWithChat 99 "ud1" "hi" 5 .TEXT =
      (dbWithChat, .error .NotFound) ∧
    MessageService.sendMessage dbWithChat 1 "intruder" "hi" 5 .TEXT =
      (dbWithChat, .error .Forbidden) ∧
    MessageService.sendMessage dbInactive 2 "ud1" "hi" 5 .TEXT =
      (dbInactive, .error .InvalidState) :=
  ⟨(sendMessage_errors dbWithChat 1 "ud1" "  " 5 .TEXT).1 (by decide),
   (sendMessage_errors dbWithChat 99 "ud1" "hi" 5 .TEXT).2.1 (by decide) rfl,
   (sendMessage_errors dbWithChat 1 "intruder" "hi" 5 .TEXT).2.2.1 chatA connA
     (by decide) rfl rfl (by decide),
   (sendMessage_errors dbInactive 2 "ud1" "hi" 5 .TEXT).2.2.2 chatB connB
     (by decide) rfl rfl (by decide) (by decide)⟩

/-- **C3.** `deleteMessage` fails with `NotFound` when the message is
absent, `Forbidden` when the user is not the message's sender, and
`InvalidState` when the message is already deleted; on success the
message's content equals the fixed placeholder, `isDeleted` becomes true
and `messageType` becomes `DELETED`, and a second delete on the same
message always fails with `InvalidState` (deletion is irreversible). -/
theorem deleteMessage_correct (db : DB) (mid : Nat) (uid : String) :
    (findMessage db mid = none →
      MessageService.deleteMessage db mid uid = (db, .error .NotFound)) ∧
    (∀ msg, findMessage db mid = some msg → msg.senderId ≠ uid →
      MessageService.deleteMessage db mid uid = (db, .error .Forbidden)) ∧
    (∀ msg, findMessage db mid = some msg → msg.senderId = uid →
      msg.isDeleted = true →
      MessageService.deleteMessage db mid uid = (db, .error .InvalidState)) ∧
    (∀ msg, findMessage db mid = some msg → msg.senderId = uid →
      msg.isDeleted = false →
      (MessageService.deleteMessage db mid uid).2 =
        .ok "Message deleted successfully" ∧
      (∀ m ∈ (MessageService.deleteMessage db mid uid).1.messages,
        m.id = mid →
        m.content = deletedPlaceholder ∧ m.isDeleted = true ∧
          m.messageType = MessageType.DELETED) ∧
      MessageService.deleteMessage
          (MessageService.deleteMessage db mid uid).1 mid uid =
        ((MessageService.deleteMessage db mid uid).1,
         .error .InvalidState)) := by
  refine ⟨fun h => ?_, fun msg h hs => ?_, fun msg h hs hd => ?_,
    fun msg h hs hd => ?_⟩
  · simp [MessageService.deleteMessage, h]
  · simp [MessageService.deleteMessage, h, hs]
  · simp [MessageService.deleteMessage, h, hs, hd]
  · have hres : MessageService.deleteMessage db mid uid =
        ({ db with messages := db.messages.map (fun m =>
            if m.id == mid then
              { m with isDeleted := true, content := deletedPlaceholder,
                       messageType := MessageType.DELETED }
            else m) },
         .ok "Message deleted successfully") := by
      simp [MessageService.deleteMessage, h, hs, hd]
    rw [hres]
    refine ⟨rfl, ?_, ?_⟩
    · intro m hmem hid
      obtain ⟨m₀, hm₀, rfl⟩ := List.mem_map.mp hmem
      by_cases hm : m₀.id = mid
      · simp [hm]
      · exact absurd (by simpa [show (m₀.id == mid) = false by simp [hm]]
          using hid) hm
    · have hfind : findMessage
          { db with messages := db.messages.map (fun m =>
              if m.id == mid then
                { m with isDeleted := true, content := deletedPlaceholder,
                         messageType := MessageType.DELETED }
              else m) } mid =
          some { msg with isDeleted := true, content := deletedPlaceholder,
                          messageType := MessageType.DELETED } := by
        rw [findMessage_map _ _ (fun m => by split <;> rfl), h]
        have hh : db.messages.find? (fun m => m.id == mid) = some msg := h
        have hbeq : (msg.id == mid) = true := by
          simpa using List.find?_some hh
        simp [hbeq]
        intro hmm
        exact absurd (by simpa using hbeq) hmm
      simp only [MessageService.deleteMessage]
      rw [hfind]
      simp [hs]

/-- Witness for **C3**: all four branches at the fixtures (missing id 99,
foreign sender on `msgA`, double delete of `msgA`). -/
theorem deleteMessage_correct_witness :
    MessageService.deleteMessage dbMsgs 99 "ud1" =
      (dbMsgs, .error .NotFound) ∧
    MessageService.deleteMessage dbMsgs 10 "up1" =
      (dbMsgs, .error .Forbidden) ∧
    ((MessageService.deleteMessage dbMsgs 10 "ud1").2 =
        .ok "Message deleted successfully" ∧
      (∀ m ∈ (MessageService.deleteMessage dbMsgs 10 "ud1").1.messages,
        m.id = 10 →
        m.content = deletedPlaceholder ∧ m.isDeleted = true ∧
          m.messageType = MessageType.DELETED) ∧
      MessageService.deleteMessage
          (MessageService.deleteMessage dbMsgs 10 "ud1").1 10 "ud1" =
        ((MessageService.deleteMessage dbMsgs 10 "ud1").1,
         .error .InvalidState)) :=
  ⟨(deleteMessage_correct dbMsgs 99 "ud1").1 rfl,
   (deleteMessage_correct dbMsgs 10 "up1").2.1 msgA rfl (by decide),
   (deleteMessage_correct dbMsgs 10 "ud1").2.2.2 msgA rfl rfl rfl⟩

/-- **C5.** For every message whose owning chat exists and is accessible to
the caller, and every current `isRead` value, `markAsRead` fails with
`Validation` when the caller equals the message's sender; and when called
by the other party on an already-read message it is idempotent, returning
the current state without error. -/
theorem markAsRead_correct (db : DB) (mid : Nat) (uid : String)
    (msg : Message) (chat : Chat)
    (hm : findMessage db mid = some msg)
    (hc : findChat db msg.chatId = some chat)
    (ha : canAccessChat db chat uid = true) :
    (msg.senderId = uid →
      MessageService.markAsRead db mid uid = (db, .error .Validation)) ∧
    (msg.senderId ≠ uid → msg.isRead = true →
      MessageService.markAsRead db mid uid = (db, .ok msg)) := by
  constructor
  · intro hs
    simp [MessageService.markAsRead, hm, hc, ha, hs]
  · intro hs hr
    simp [MessageService.markAsRead, hm, hc, ha, hs, hr]

/-- Witness for **C5**: the sender of `msgA` fails `Validation` even though
`msgA` is unread; the counterpart re-marking the already-read `msgB` gets
the current state back unchanged. -/
theorem markAsRead_correct_witness :
    MessageService.markAsRead dbMsgs 10 "ud1" = (dbMsgs, .error .Validation) ∧
    MessageService.markAsRead dbMsgs 11 "ud1" = (dbMsgs, .ok msgB) :=
  ⟨(markAsRead_correct dbMsgs 10 "ud1" msgA chatA rfl rfl (by decide)).1 rfl,
   (markAsRead_correct dbMsgs 11 "ud1" msgB chatA rfl rfl (by decide)).2
     (by decide) rfl⟩

/-- **C6.** `updateConnectionLastMessage(connectionId, t, p)` sets the
connection's `lastMessageAt` and `lastActivityAt` and the chat's
`lastMessageAt` all to the same timestamp `t`, and sets the chat's
`lastMessagePreview` to the first 200 characters of `p` — of length
exactly 200 when `p` is longer (in general `min 200 p.length`). -/
theorem updateConnectionLastMessage_correct (db : DB) (cid : String)
    (t : Nat) (p : String) :
    (∀ c ∈ (ChatService.updateConnectionLastMessage db cid t p).connections,
      c.id = cid → c.lastMessageAt = some t ∧ c.lastActivityAt = some t) ∧
    (∀ ch ∈ (ChatService.updateConnectionLastMessage db cid t p).chats,
      ch.connectionId = cid →
        ch.lastMessageAt = some t ∧
        ch.lastMessagePreview = some (substringTo p 200) ∧
        (substringTo p 200).data = p.data.take 200 ∧
        (substringTo p 200).length = min 200 p.length) := by
  constructor
  · intro c hc hid
    obtain ⟨c₀, h₀, rfl⟩ := List.mem_map.mp hc
    by_cases h : c₀.id = cid
    · simp [h]
    · have hb : (c₀.id == cid) = false := by simp [h]
      exact absurd (by simpa [hb] using hid) h
  · intro ch hch hid
    obtain ⟨ch₀, h₀, rfl⟩ := List.mem_map.mp hch
    by_cases h : ch₀.connectionId = cid
    · refine ⟨by simp [h], by simp [h], rfl, ?_⟩
      show (p.data.take 200).length = min 200 p.length
      rw [List.length_take, String.length_data]
    · have hb : (ch₀.connectionId == cid) = false := by simp [h]
      exact absurd (by simpa [hb] using hid) h

/-- Witness for **C6** at a 300-character preview: the stored preview has
length exactly 200. -/
theorem updateConnectionLastMessage_correct_witness :
    (∀ c ∈ (ChatService.updateConnectionLastMessage dbWithChat "c1" 9
        (String.mk (List.replicate 300 'x'))).connections,
      c.id = "c1" → c.lastMessageAt = some 9 ∧ c.lastActivityAt = some 9) ∧
    (∀ ch ∈ (ChatService.updateConnectionLastMessage dbWithChat "c1" 9
        (String.mk (List.replicate 300 'x'))).chats,
      ch.connectionId = "c1" →
        ch.lastMessageAt = some 9 ∧
        ch.lastMessagePreview =
          some (substringTo (String.mk (List.replicate 300 'x')) 200) ∧
        (substringTo (String.mk (List.replicate 300 'x')) 200).data =
          (String.mk (List.replicate 300 'x')).data.take 200 ∧
        (substringTo (String.mk (List.replicate 300 'x')) 200).length =
          min 200 (String.mk (List.replicate 300 'x')).length) :=
  updateConnectionLastMessage_correct dbWithChat "c1" 9
    (String.mk (List.replicate 300 'x'))

/-- **C7.** `getUnreadCount(userId, role)` sums `unreadCount` across the
user's connections; when the role is `DOCTOR` and no doctor profile exists
for the user it returns 0 without error, but when the role is `PATIENT`
and no patient profile exists it fails with `NotFound` (the documented
asymmetry). -/
theorem getUnreadCount_asymmetry (db : DB) (uid : String) :
    (findDoctorByUser db uid = none →
      ChatService.getUnreadCount db uid .DOCTOR = .ok 0) ∧
    (∀ d, findDoctorByUser db uid = some d →
      ChatService.getUnreadCount db uid .DOCTOR =
        .ok (((db.connections.filter (fun c => c.doctorId == d.id)).map
          Connection.unreadCount).sum)) ∧
    (findPatientByUser db uid = none →
      ChatService.getUnreadCount db uid .PATIENT = .error .NotFound) ∧
    (∀ pr, findPatientByUser db uid = some pr →
      ChatService.getUnreadCount db uid .PATIENT =
        .ok (((db.connections.filter (fun c => c.patientId == pr.id)).map
          Connection.unreadCount).sum)) := by
  refine ⟨fun h => ?_, fun d h => ?_, fun h => ?_, fun pr h => ?_⟩ <;>
    simp [ChatService.getUnreadCount, h]

/-- Witness for **C7**: a user with no profile gets 0 as a doctor but
`NotFound` as a patient; the doctor of `dbUnread` gets the summed 7. -/
theorem getUnreadCount_asymmetry_witness :
    ChatService.getUnreadCount dbUnread "ghost" .DOCTOR = .ok 0 ∧
    ChatService.getUnreadCount dbUnread "ghost" .PATIENT =
      .error .NotFound ∧
    ChatService.getUnreadCount dbUnread "ud1" .DOCTOR = .ok 7 :=
  ⟨(getUnreadCount_asymmetry dbUnread "ghost").1 (by decide),
   (getUnreadCount_asymmetry dbUnread "ghost").2.2.1 (by decide),
   (getUnreadCount_asymmetry dbUnread "ud1").2.1
     { id := "d1", userId := "ud1" } (by decide)⟩

/-- **C9.** On the get-or-create chat endpoint the caller's membership is
checked only after `getOrCreateChat` has run: for an `ACTIVE` connection
with no chat and a non-member caller, a chat and its system message are
still created, and the caller is rejected with a `Validation`-class error
(`BadRequestException`) rather than `Forbidden`. -/
theorem controller_getOrCreateChat_nonmember (db : DB) (cid : String)
    (uid : String) (now : Nat) (conn : Connection)
    (hconn : findConnection db cid = some conn)
    (hactive : conn.status = ConnStatus.ACTIVE)
    (hnochat : findChatByConnection db cid = none)
    (hnm : connMember conn uid = false) :
    (ChatController.getOrCreateChat db cid uid now).2 =
      .error .Validation ∧
    (ChatController.getOrCreateChat db cid uid now).1.chats.length =
      db.chats.length + 1 ∧
    (ChatController.getOrCreateChat db cid uid now).1.messages.length =
      db.messages.length + 1 := by
  have hsvc : ChatService.getOrCreateChat db cid now =
      ({ db with
          chats := { id := db.nextChatId, connectionId := cid,
                     lastMessageAt := none,
                     lastMessagePreview := none } :: db.chats,
          messages := { id := db.nextMessageId, chatId := db.nextChatId,
                        senderId := conn.doctorUserId,
                        content := systemMessageContent,
                        messageType := .SYSTEM, isRead := true,
                        isDeleted := false,
                        createdAt := now } :: db.messages,
          nextChatId := db.nextChatId + 1,
          nextMessageId := db.nextMessageId + 1 },
       .ok { id := db.nextChatId, connectionId := cid,
             lastMessageAt := none, lastMessagePreview := none }) := by
    simp [ChatService.getOrCreateChat, hconn, hactive, hnochat]
  have hfind : List.find? (fun c => c.id == cid) db.connections = some conn :=
    hconn
  simp only [ChatController.getOrCreateChat, hsvc]
  simp [ChatService.verifyUserAccess, findChat, canAccessChat, findConnection,
    hfind, hnm]

/-- Witness for **C9**: the outsider `"stranger"` calling the endpoint on
`dbNoChat` still causes chat and system-message creation, and is rejected
with `Validation`. -/
theorem controller_getOrCreateChat_nonmember_witness :
    (ChatController.getOrCreateChat dbNoChat "c1" "stranger" 4).2 =
      .error .Validation ∧
    (ChatController.getOrCreateChat dbNoChat "c1" "stranger" 4).1.chats.length =
      dbNoChat.chats.length + 1 ∧
    (ChatController.getOrCreateChat dbNoChat "c1" "stranger" 4).1.messages.length =
      dbNoChat.messages.length + 1 :=
  controller_getOrCreateChat_nonmember dbNoChat "c1" "stranger" 4 connA
    rfl rfl rfl (by decide)

/-- **C10.** The mark-all-read endpoint pairs `markAllAsRead` with
`resetUnreadCount`: after a successful call, every message of the chat
authored by the other party is read (the ledger's unread count for the
caller is 0) and the owning connection's `unreadCount` is 0, so the
counter agrees with the now-zero count of unread counterpart messages. -/
theorem controller_markAllAsRead_consistent (db : DB) (chatId : Nat)
    (uid : String) (conf : String)
    (hok : (ChatController.markAllAsRead db chatId uid).2 = .ok conf) :
    MessageService.getUnreadCount
        (ChatController.markAllAsRead db chatId uid).1 chatId uid = 0 ∧
    ∃ chat, findChat db chatId = some chat ∧
      ∀ c ∈ (ChatController.markAllAsRead db chatId uid).1.connections,
        c.id = chat.connectionId → c.unreadCount = 0 := by
  cases hchat : findChat db chatId with
  | none =>
    rw [ChatController.markAllAsRead] at hok
    simp [MessageService.markAllAsRead, hchat] at hok
  | some chat =>
    cases hacc : canAccessChat db chat uid with
    | false =>
      rw [ChatController.markAllAsRead] at hok
      simp [MessageService.markAllAsRead, hchat, hacc] at hok
    | true =>
      have hmark := markAllAsRead_ok db chatId uid chat hchat hacc
      have hchat1 : findChat
          { db with messages := db.messages.map (fun m =>
              if m.chatId == chatId && !m.isRead && m.senderId != uid then
                { m with isRead := true }
              else m) } chatId = some chat := hchat
      have hacc1 : canAccessChat
          { db with messages := db.messages.map (fun m =>
              if m.chatId == chatId && !m.isRead && m.senderId != uid then
                { m with isRead := true }
              else m) } chat uid = true := hacc
      have hreset := resetUnreadCount_ok
        { db with messages := db.messages.map (fun m =>
            if m.chatId == chatId && !m.isRead && m.senderId != uid then
              { m with isRead := true }
            else m) } chatId uid chat hchat1 hacc1
      have hctrl : ChatController.markAllAsRead db chatId uid =
          ({ db with
              messages := db.messages.map (fun m =>
                if m.chatId == chatId && !m.isRead && m.senderId != uid then
                  { m with isRead := true }
                else m),
              connections := db.connections.map (fun c =>
                if c.id == chat.connectionId then { c with unreadCount := 0 }
                else c) },
           .ok "All messages marked as read") := by
        simp only [ChatController.markAllAsRead, hmark, hreset]
      rw [hctrl]
      refine ⟨?_, chat, rfl, ?_⟩
      · show (List.filter _ (db.messages.map (fun m =>
            if m.chatId == chatId && !m.isRead && m.senderId != uid then
              { m with isRead := true }
            else m))).length = 0
        rw [List.length_eq_zero, List.filter_eq_nil_iff]
        intro m' hm'
        obtain ⟨m₀, hm₀, rfl⟩ := List.mem_map.mp hm'
        cases hcond : (m₀.chatId == chatId && !m₀.isRead &&
            m₀.senderId != uid) with
        | true => simp [hcond]
        | false =>
          rw [if_neg (by simp)]
          show ¬ (m₀.chatId == chatId && !m₀.isRead && m₀.senderId != uid &&
            !m₀.isDeleted) = true
          rw [hcond]
          simp
      · intro c hc hid
        obtain ⟨c₀, h₀, rfl⟩ := List.mem_map.mp hc
        by_cases h : c₀.id = chat.connectionId
        · simp [h]
        · have hb : (c₀.id == chat.connectionId) = false := by simp [h]
          exact absurd (by simpa [hb] using hid) h

/-- Witness for **C10**: marking all read in `dbUnread`'s chat as the
doctor-side user zeroes both the per-chat unread count and the
connection's counter. -/
theorem controller_markAllAsRead_consistent_witness :
    MessageService.getUnreadCount
        (ChatController.markAllAsRead dbUnread 1 "ud1").1 1 "ud1" = 0 ∧
    ∃ chat, findChat dbUnread 1 = some chat ∧
      ∀ c ∈ (ChatController.markAllAsRead dbUnread 1 "ud1").1.connections,
        c.id = chat.connectionId → c.unreadCount = 0 :=
  controller_markAllAsRead_consistent dbUnread 1 "ud1"
    "All messages marked as read" rfl

/-- The message persisted by the send endpoint in the runs used for the
C8 counterexample and witness. -/
def sentMsgW : Message :=
  { id := 1, chatId := 1, senderId := "up1", content := "hello doctor",
    messageType := .TEXT, isRead := false, isDeleted := false,
    createdAt := 9 }

/-- Counterexample to **C8** as stated: a successful send through the
endpoint on `dbWithChat` (whose only connection has `unreadCount = 0`)
leaves the connection's `unreadCount` at 0 — had the endpoint invoked
`incrementUnreadCount` as a follow-up, the counter would be 1, as the
third conjunct computes. -/
theorem controller_sendMessage_noIncrement_cex :
    (ChatController.sendMessage dbWithChat 1 "hello doctor" .TEXT "up1" 9).2 =
      .ok sentMsgW ∧
    (ChatController.sendMessage dbWithChat 1 "hello doctor" .TEXT
        "up1" 9).1.connections.map Connection.unreadCount = [0] ∧
    (ChatService.incrementUnreadCount
        (ChatController.sendMessage dbWithChat 1 "hello doctor" .TEXT
          "up1" 9).1 "c1" .PATIENT).connections.map
      Connection.unreadCount = [1] :=
  ⟨rfl, rfl, rfl⟩

/-- **C8 (amended).** After every successful `sendMessage` through the
request endpoint, the endpoint invokes `updateConnectionLastMessage` as a
follow-up (the chat's connection carries the persisted message's
`createdAt` in `lastMessageAt` and `lastActivityAt`), but it does not
invoke `incrementUnreadCount`: every connection's `unreadCount` is
unchanged. -/
theorem controller_sendMessage_followUp (db : DB) (chatId : Nat)
    (content : String) (ty : MessageType) (uid : String) (now : Nat)
    (msg : Message)
    (hok : (ChatController.sendMessage db chatId content ty uid now).2 =
      .ok msg) :
    (ChatController.sendMessage db chatId content ty uid
        now).1.connections.map Connection.unreadCount =
      db.connections.map Connection.unreadCount ∧
    ∃ chat, findChat db chatId = some chat ∧
      ∀ c ∈ (ChatController.sendMessage db chatId content ty uid
          now).1.connections,
        c.id = chat.connectionId →
          c.lastMessageAt = some msg.createdAt ∧
          c.lastActivityAt = some msg.createdAt := by
  cases htrim : (strTrim content == "") with
  | true =>
    simp [ChatController.sendMessage, MessageService.sendMessage, htrim]
      at hok
  | false =>
  cases hchat : findChat db chatId with
  | none =>
    simp [ChatController.sendMessage, MessageService.sendMessage, htrim,
      hchat] at hok
  | some chat =>
  cases hconn : findConnection db chat.connectionId with
  | none =>
    simp [ChatController.sendMessage, MessageService.sendMessage, htrim,
      hchat, hconn] at hok
  | some conn =>
  cases hmem : connMember conn uid with
  | false =>
    simp [ChatController.sendMessage, MessageService.sendMessage, htrim,
      hchat, hconn, hmem] at hok
  | true =>
  by_cases hstat : conn.status = ConnStatus.ACTIVE
  case neg =>
    simp [ChatController.sendMessage, MessageService.sendMessage, htrim,
      hchat, hconn, hmem, hstat] at hok
  case pos =>
  have hsend := sendMessage_ok db chatId uid content now ty chat conn
    htrim hchat hconn hmem hstat
  have hchat1 : findChat (dbAfterSend db chatId uid content ty now) chatId =
      some chat := hchat
  have hacc1 : canAccessChat (dbAfterSend db chatId uid content ty now)
      chat uid = true := by
    simp only [canAccessChat]
    rw [show findConnection (dbAfterSend db chatId uid content ty now)
      chat.connectionId = some conn from hconn]
    exact hmem
  have hdet : ChatService.getChatDetails
      (dbAfterSend db chatId uid content ty now) chatId uid = .ok chat := by
    simp [ChatService.getChatDetails, hchat1, hacc1]
  have hctrl : ChatController.sendMessage db chatId content ty uid now =
      (ChatService.updateConnectionLastMessage
        (dbAfterSend db chatId uid content ty now) chat.connectionId
        now content,
       .ok (newMessage db chatId uid content ty now)) := by
    simp only [ChatController.sendMessage, hsend, hdet, newMessage]
  rw [hctrl] at hok ⊢
  have hmsg : msg = newMessage db chatId uid content ty now := by
    simpa using hok.symm
  subst hmsg
  refine ⟨?_, chat, rfl, ?_⟩
  · show (db.connections.map _).map Connection.unreadCount =
      db.connections.map Connection.unreadCount
    rw [List.map_map]
    congr 1
    funext c
    show (if c.id == chat.connectionId then
        { c with lastMessageAt := some now,
                 lastActivityAt := some now } else c).unreadCount =
      c.unreadCount
    split <;> rfl
  · intro c hc hid
    obtain ⟨c₀, h₀, rfl⟩ := List.mem_map.mp hc
    by_cases h : c₀.id = chat.connectionId
    · simp [h, newMessage]
    · have hb : (c₀.id == chat.connectionId) = false := by simp [h]
      exact absurd (by simpa [hb] using hid) h

/-- Witness for **C8 (amended)** at the counterexample run on
`dbWithChat`. -/
theorem controller_sendMessage_followUp_witness :
    (ChatController.sendMessage dbWithChat 1 "hello doctor" .TEXT "up1"
        9).1.connections.map Connection.unreadCount =
      dbWithChat.connections.map Connection.unreadCount ∧
    ∃ chat, findChat dbWithChat 1 = some chat ∧
      ∀ c ∈ (ChatController.sendMessage dbWithChat 1 "hello doctor" .TEXT
          "up1" 9).1.connections,
        c.id = chat.connectionId →
          c.lastMessageAt = some sentMsgW.createdAt ∧
          c.lastActivityAt = some sentMsgW.createdAt :=
  controller_sendMessage_followUp dbWithChat 1 "hello doctor" .TEXT "up1" 9
    sentMsgW rfl

/-- **C4.** For every chat the caller can access, `getMessages` returns up
to `limit` (default 20) messages of the chat strictly older than the
cursor, ordered newest-first by `(createdAt, id)` descending; when a last
message is returned, the returned `cursor` equals its `createdAt`, and
`hasMore` is true iff the subsequent page (the same query at the returned
cursor) would be non-empty — decided by a bounded existence check on the
remaining candidates, not a second full count. -/
theorem getMessages_paginates (db : DB) (chatId : Nat) (userId : String)
    (cursor : Option Nat) (limit : Option Nat) (chat : Chat)
    (hchat : findChat db chatId = some chat)
    (hacc : canAccessChat db chat userId = true) :
    ∃ page, MessageService.getMessages db chatId userId cursor limit =
        .ok page ∧
      page.messages.length ≤ limit.getD 20 ∧
      (∀ m ∈ page.messages, m.chatId = chatId ∧
        ∀ t, cursor = some t → m.createdAt < t) ∧
      page.messages.Pairwise (fun a b => MessageService.msgLe a b = true) ∧
      (∀ last, page.messages.getLast? = some last →
        page.cursor = some last.createdAt ∧
        (page.hasMore = true ↔
          ∃ page2, MessageService.getMessages db chatId userId page.cursor
              limit = .ok page2 ∧ page2.messages ≠ [])) := by
  refine ⟨_, getMessages_ok db chatId userId cursor limit chat hchat hacc,
    ?_, ?_, ?_, ?_⟩
  · show ((List.mergeSort (MessageService.chatMessages db chatId cursor)
        MessageService.msgLe).take (limit.getD 20)).length ≤ limit.getD 20
    rw [List.length_take]
    exact Nat.min_le_left _ _
  · intro m hm
    have hmem : m ∈ MessageService.chatMessages db chatId cursor :=
      List.mem_mergeSort.mp (List.mem_of_mem_take hm)
    rw [MessageService.chatMessages, List.mem_filter] at hmem
    have hpred := hmem.2
    refine ⟨?_, ?_⟩
    · simp only [Bool.and_eq_true, beq_iff_eq] at hpred
      exact hpred.1
    · intro t ht
      subst ht
      simp only [Bool.and_eq_true, decide_eq_true_eq] at hpred
      exact hpred.2
  · show ((List.mergeSort (MessageService.chatMessages db chatId cursor)
        MessageService.msgLe).take (limit.getD 20)).Pairwise _
    exact List.Pairwise.sublist (List.take_sublist _ _)
      (List.sorted_mergeSort msgLe_trans msgLe_total _)
  · intro last hlast
    have hlast' : ((List.mergeSort (MessageService.chatMessages db chatId
        cursor) MessageService.msgLe).take (limit.getD 20)).getLast? =
        some last := hlast
    have hlim : limit.getD 20 ≠ 0 := by
      intro h0
      have hcopy := hlast'
      rw [h0, List.take_zero] at hcopy
      simp at hcopy
    refine ⟨by simp [hlast'], ?_⟩
    simp only [hlast', Option.map_some']
    constructor
    · intro hm
      refine ⟨_, getMessages_ok db chatId userId (some last.createdAt) limit
        chat hchat hacc, ?_⟩
      show (List.mergeSort (MessageService.chatMessages db chatId
          (some last.createdAt)) MessageService.msgLe).take
        (limit.getD 20) ≠ []
      rw [Ne, List.take_eq_nil_iff]
      rintro (h0 | hnil)
      · exact hlim h0
      · have hcand : MessageService.chatMessages db chatId
            (some last.createdAt) = [] := by
          have hlen : (List.mergeSort (MessageService.chatMessages db chatId
              (some last.createdAt)) MessageService.msgLe).length =
              (MessageService.chatMessages db chatId
                (some last.createdAt)).length :=
            List.length_mergeSort _
          rw [hnil] at hlen
          exact List.length_eq_zero.mp hlen.symm
        rw [hcand] at hm
        simp at hm
    · rintro ⟨page2, h2, hne⟩
      rw [getMessages_ok db chatId userId (some last.createdAt) limit chat
        hchat hacc] at h2
      injection h2 with h2
      subst h2
      have hcand : MessageService.chatMessages db chatId
          (some last.createdAt) ≠ [] := by
        intro hnil
        apply hne
        show (List.mergeSort (MessageService.chatMessages db chatId
            (some last.createdAt)) MessageService.msgLe).take
          (limit.getD 20) = []
        rw [hnil]
        simp
      simp [hcand]

/-- Witness for **C4** on `dbMsgs` with page size 1: the first page is the
newer message, the cursor is its timestamp, and `hasMore` correctly
announces the non-empty second page. -/
theorem getMessages_paginates_witness :
    ∃ page, MessageService.getMessages dbMsgs 1 "ud1" none (some 1) =
        .ok page ∧
      page.messages.length ≤ (some 1).getD 20 ∧
      (∀ m ∈ page.messages, m.chatId = 1 ∧
        ∀ t, (none : Option Nat) = some t → m.createdAt < t) ∧
      page.messages.Pairwise (fun a b => MessageService.msgLe a b = true) ∧
      (∀ last, page.messages.getLast? = some last →
        page.cursor = some last.createdAt ∧
        (page.hasMore = true ↔
          ∃ page2, MessageService.getMessages dbMsgs 1 "ud1" page.cursor
              (some 1) = .ok page2 ∧ page2.messages ≠ [])) :=
  getMessages_paginates dbMsgs 1 "ud1" none (some 1) chatA rfl rfl

end Clinic
